import Mathlib

/-!
Verification of the commitbot repository (an IRC commit-notification bot fed
by GitHub webhooks) against its natural-language specification.

Bytes are modelled as `Nat` values (each kept below 256 by construction),
byte strings as `List Nat`, machine words as `Nat` reduced modulo `2 ^ 32`
where the source's arithmetic wraps.  Python library calls that the
repository only consumes at their interface (`json.loads`,
`twisted.web.http.parse_qs`, the HTTP agent) are oracle parameters; the
cryptographic primitives (`hashlib.sha256`, `hmac`) and `base64` are
implemented in full so that the repository's own logic sits on executable
ground.
-/

namespace Commitbot

/-! ## ASCII string helpers (Python `str.lower` / `str.upper` on ASCII data) -/

/-- ASCII lowercasing of one character, as Python `str.lower` acts on ASCII. -/
def asciiLowerChar (c : Char) : Char :=
  if 'A' ≤ c ∧ c ≤ 'Z' then Char.ofNat (c.toNat + 32) else c

/-- ASCII uppercasing of one character, as Python `str.upper` acts on ASCII. -/
def asciiUpperChar (c : Char) : Char :=
  if 'a' ≤ c ∧ c ≤ 'z' then Char.ofNat (c.toNat - 32) else c

/-- Python `s.lower()` restricted to ASCII content. -/
def asciiLower (s : String) : String := String.mk (s.data.map asciiLowerChar)

/-- Python `s.upper()` restricted to ASCII content. -/
def asciiUpper (s : String) : String := String.mk (s.data.map asciiUpperChar)

/-- Python `s.split(' ')`: split on every single space, keeping empty pieces
(`''.split(' ') == ['']`). -/
def splitSpace (l : List Char) : List (List Char) :=
  l.foldr
    (fun c acc =>
      match acc with
      | cur :: rest => if c = ' ' then [] :: cur :: rest else (c :: cur) :: rest
      | [] => [[c]])
    [[]]

/-! ## UTF-8 encoding (Python `str.encode('utf-8')`) -/

/-- UTF-8 bytes of a single code point. -/
def utf8Bytes (c : Char) : List Nat :=
  let n := c.toNat
  if n < 128 then [n]
  else if n < 2048 then [192 + n / 64, 128 + n % 64]
  else if n < 65536 then [224 + n / 4096, 128 + (n / 64) % 64, 128 + n % 64]
  else [240 + n / 262144, 128 + (n / 4096) % 64, 128 + (n / 64) % 64, 128 + n % 64]

/-- Python `s.encode('utf-8')` as a byte list. -/
def strBytes (s : String) : List Nat := s.data.flatMap utf8Bytes

/-! ## SHA-256 (`hashlib.sha256`), on byte lists, words as `Nat` mod `2 ^ 32` -/

/-- Word modulus `2 ^ 32`. -/
def M32 : Nat := 4294967296

/-- Right rotation of a 32-bit word. -/
def rotr32 (n x : Nat) : Nat := ((x >>> n) ||| ((x <<< (32 - n)) % M32)) % M32

/-- SHA-256 small sigma 0. -/
def ssig0 (x : Nat) : Nat := rotr32 7 x ^^^ rotr32 18 x ^^^ (x >>> 3)

/-- SHA-256 small sigma 1. -/
def ssig1 (x : Nat) : Nat := rotr32 17 x ^^^ rotr32 19 x ^^^ (x >>> 10)

/-- SHA-256 big sigma 0. -/
def bsig0 (x : Nat) : Nat := rotr32 2 x ^^^ rotr32 13 x ^^^ rotr32 22 x

/-- SHA-256 big sigma 1. -/
def bsig1 (x : Nat) : Nat := rotr32 6 x ^^^ rotr32 11 x ^^^ rotr32 25 x

/-- SHA-256 choice function. -/
def chF (x y z : Nat) : Nat := (x &&& y) ^^^ ((x ^^^ 4294967295) &&& z)

/-- SHA-256 majority function. -/
def majF (x y z : Nat) : Nat := (x &&& y) ^^^ (x &&& z) ^^^ (y &&& z)

/-- The 64 SHA-256 round constants of FIPS 180-4, written in decimal. -/
def K256 : List Nat :=
  [1116352408, 1899447441, 3049323471, 3921009573, 961987163,
   1508970993, 2453635748, 2870763221, 3624381080, 310598401,
   607225278, 1426881987, 1925078388, 2162078206, 2614888103,
   3248222580, 3835390401, 4022224774, 264347078, 604807628,
   770255983, 1249150122, 1555081692, 1996064986, 2554220882,
   2821834349, 2952996808, 3210313671, 3336571891, 3584528711,
   113926993, 338241895, 666307205, 773529912, 1294757372,
   1396182291, 1695183700, 1986661051, 2177026350, 2456956037,
   2730485921, 2820302411, 3259730800, 3345764771, 3516065817,
   3600352804, 4094571909, 275423344, 430227734, 506948616,
   659060556, 883997877, 958139571, 1322822218, 1537002063,
   1747873779, 1955562222, 2024104815, 2227730452, 2361852424,
   2428436474, 2756734187, 3204031479, 3329325298]

/-- The eight SHA-256 initial hash words of FIPS 180-4, in decimal. -/
def sha256Init : List Nat :=
  [1779033703, 3144134277, 1013904242, 2773480762,
   1359893119, 2600822924, 528734635, 1541459225]

/-- Big-endian 8-byte encoding of a length-in-bits counter. -/
def be64 (n : Nat) : List Nat :=
  [(n >>> 56) % 256, (n >>> 48) % 256, (n >>> 40) % 256, (n >>> 32) % 256,
   (n >>> 24) % 256, (n >>> 16) % 256, (n >>> 8) % 256, n % 256]

/-- Big-endian 4-byte decomposition of a 32-bit word. -/
def wordBytes (w : Nat) : List Nat :=
  [(w >>> 24) % 256, (w >>> 16) % 256, (w >>> 8) % 256, w % 256]

/-- SHA-256 padding: `0x80`, zeros to 56 mod 64, then the 64-bit bit length. -/
def sha256Pad (msg : List Nat) : List Nat :=
  msg ++ 128 :: List.replicate ((64 - ((msg.length + 9) % 64)) % 64) 0
      ++ be64 (8 * msg.length)

/-- Group a byte list into 4-byte big-endian words (fuel-driven so that the
kernel can evaluate it). -/
def toWords : Nat → List Nat → List Nat
  | _, [] => []
  | 0, _ => []
  | fuel + 1, b1 :: b2 :: b3 :: b4 :: rest =>
      (b1 * 16777216 + b2 * 65536 + b3 * 256 + b4) :: toWords fuel rest
  | _ + 1, _ => []

/-- Group a list into 64-element blocks (fuel-driven). -/
def group64 : Nat → List Nat → List (List Nat)
  | _, [] => []
  | 0, _ => []
  | fuel + 1, l => l.take 64 :: group64 fuel (l.drop 64)

/-- Extend the 16 message-schedule words to 64. -/
def extendW (ws : List Nat) : List Nat :=
  (List.range 48).foldl
    (fun ws _ =>
      let n := ws.length
      ws ++ [(ssig1 (ws.getD (n - 2) 0) + ws.getD (n - 7) 0
              + ssig0 (ws.getD (n - 15) 0) + ws.getD (n - 16) 0) % M32])
    ws

/-- One SHA-256 compression round. -/
def round256 (st : Nat × Nat × Nat × Nat × Nat × Nat × Nat × Nat) (kw : Nat × Nat) :
    Nat × Nat × Nat × Nat × Nat × Nat × Nat × Nat :=
  let (a, b, c, d, e, f, g, h) := st
  let t1 := (h + bsig1 e + chF e f g + kw.1 + kw.2) % M32
  let t2 := (bsig0 a + majF a b c) % M32
  ((t1 + t2) % M32, a, b, c, (d + t1) % M32, e, f, g)

/-- Compress one 64-byte block into the running hash. -/
def compressBlock (hs : List Nat) (block : List Nat) : List Nat :=
  let ws := extendW (toWords block.length block)
  let init := (hs.getD 0 0, hs.getD 1 0, hs.getD 2 0, hs.getD 3 0,
               hs.getD 4 0, hs.getD 5 0, hs.getD 6 0, hs.getD 7 0)
  let (a, b, c, d, e, f, g, h) := (K256.zip ws).foldl round256 init
  List.zipWith (fun x y => (x + y) % M32) hs [a, b, c, d, e, f, g, h]

/-- SHA-256 digest (32 bytes) of a byte list, as `hashlib.sha256(..).digest()`. -/
def sha256 (msg : List Nat) : List Nat :=
  let padded := sha256Pad msg
  ((group64 padded.length padded).foldl compressBlock sha256Init).flatMap wordBytes

/-! ## HMAC-SHA256 (`hmac.new(key, msg, hashlib.sha256)`) -/

/-- HMAC-SHA256 over byte lists: block size 64, `ipad` 0x36, `opad` 0x5c. -/
def hmacSha256 (key msg : List Nat) : List Nat :=
  let k0 := if 64 < key.length then sha256 key else key
  let k := k0 ++ List.replicate (64 - k0.length) 0
  sha256 ((k.map (fun b => b ^^^ 92)) ++ sha256 ((k.map (fun b => b ^^^ 54)) ++ msg))

/-! ## Lowercase hex (`.hexdigest()`) -/

/-- The lowercase hexadecimal alphabet. -/
def hexChars : List Char := "0123456789abcdef".data

/-- One lowercase hex digit. -/
def hexDigit (n : Nat) : Char := hexChars.getD (n % 16) '0'

/-- Lowercase hex chars of a byte list, two digits per byte (`'%02x'`). -/
def hexBytes (bs : List Nat) : List Char :=
  bs.flatMap (fun b => [hexDigit (b / 16), hexDigit b])

/-- Python `.hexdigest()`: the lowercase hex string of a digest. -/
def hexdigest (bs : List Nat) : String := String.mk (hexBytes bs)

/-! ## `GithubHook.checkSignature` (src/commitbot/http_hooks.py, lines 70-74) -/

/-- Model of `hmac.compare_digest` on strings: a comparison that is
constant-time in the source but extensionally string equality. -/
def compare_digest (a b : String) : Bool := a == b

/-- `GithubHook.checkSignature(payload, signature)` with the configured
`secret`: compare `"sha256=" + hmac-sha256-hexdigest` against the header. -/
def checkSignature (secret : String) (payload : List Nat) (signature : String) : Bool :=
  compare_digest ("sha256=" ++ hexdigest (hmacSha256 (strBytes secret) payload)) signature

/-! ## Base64 (Python `base64.b64encode` / `base64.b64decode`) -/

/-- The standard base64 alphabet. -/
def b64Alphabet : List Char :=
  "ABCDEFGHIJKLMNOPQRSTUVWXYZabcdefghijklmnopqrstuvwxyz0123456789+/".data

/-- The base64 character of a 6-bit group. -/
def b64Char (n : Nat) : Char := b64Alphabet.getD (n % 64) 'A'

/-- Fuel-driven base64 encoding of a byte list (3 bytes to 4 characters,
`'='` padding on a short final group), as `base64.b64encode`. -/
def b64encodeGo : Nat → List Nat → List Char
  | _, [] => []
  | 0, _ => []
  | fuel + 1, b1 :: b2 :: b3 :: rest =>
      let n := b1 * 65536 + b2 * 256 + b3
      b64Char (n >>> 18) :: b64Char (n >>> 12) :: b64Char (n >>> 6) :: b64Char n
        :: b64encodeGo fuel rest
  | _ + 1, [b1, b2] =>
      let n := b1 * 65536 + b2 * 256
      [b64Char (n >>> 18), b64Char (n >>> 12), b64Char (n >>> 6), '=']
  | _ + 1, [b1] =>
      let n := b1 * 65536
      [b64Char (n >>> 18), b64Char (n >>> 12), '=', '=']

/-- `base64.b64encode` of a byte list, as ASCII characters. -/
def b64encodeChars (bs : List Nat) : List Char := b64encodeGo bs.length bs

/-- The 6-bit value of a base64 alphabet character. -/
def b64Value (c : Char) : Nat := (b64Alphabet.indexOf c) % 64

/-- Decode complete 4-character groups; `'='` padding is legal only at the
very end (`some` of the bytes, `none` on malformed padding). -/
def b64decodeGo : Nat → List Char → Option (List Nat)
  | _, [] => some []
  | 0, _ => none
  | fuel + 1, c1 :: c2 :: c3 :: c4 :: rest =>
      if c1 = '=' ∨ c2 = '=' then none
      else if c3 = '=' then
        if c4 = '=' ∧ rest = [] then
          some [(b64Value c1 * 4 + b64Value c2 / 16) % 256]
        else none
      else if c4 = '=' then
        if rest = [] then
          let n := b64Value c1 * 262144 + b64Value c2 * 4096 + b64Value c3 * 64
          some [(n >>> 16) % 256, (n >>> 8) % 256]
        else none
      else
        let n := b64Value c1 * 262144 + b64Value c2 * 4096 + b64Value c3 * 64 + b64Value c4
        match b64decodeGo fuel rest with
        | some bs => some ((n >>> 16) % 256 :: (n >>> 8) % 256 :: n % 256 :: bs)
        | none => none
  | _ + 1, _ => none

/-- `base64.b64decode` (default `validate=False`): characters outside the
alphabet and `'='` are discarded, then the length must be a multiple of 4;
`none` models the `binascii.Error` the source would raise. -/
def b64decodeChars (cs : List Char) : Option (List Nat) :=
  let cs := cs.filter (fun c => c ∈ b64Alphabet ∨ c = '=')
  if cs.length % 4 = 0 then b64decodeGo cs.length cs else none

/-! ## SASL payload chunking (src/commitbot/irc_bot.py, `irc_AUTHENTICATE`) -/

/-- The source's `SASL_MAX_BLOCK_SIZE`. -/
def SASL_MAX_BLOCK_SIZE : Nat := 400

/-- The sending loop of `irc_AUTHENTICATE` (lines 129-135): while more than
400 characters remain, peel off a 400-character `AUTHENTICATE` line; then
send the remainder if non-empty, else a lone `'+'`.  Each element of the
result is the argument of one `self.sendLine('AUTHENTICATE ' + part)`. -/
def saslSendChunks : Nat → List Char → List (List Char)
  | 0, _ => []
  | fuel + 1, out =>
      if SASL_MAX_BLOCK_SIZE < out.length then
        out.take SASL_MAX_BLOCK_SIZE :: saslSendChunks fuel (out.drop SASL_MAX_BLOCK_SIZE)
      else if out ≠ [] then [out]
      else [['+']]

/-- Lines 125-135 of `irc_AUTHENTICATE`: base64-encode a non-empty response
(`'+'` for an empty one) and emit it through the sending loop. -/
def saslRespond (payload : List Nat) : List (List Char) :=
  let out := if payload ≠ [] then b64encodeChars payload else ['+']
  saslSendChunks (out.length + 1) out

/-- The receiving side of `irc_AUTHENTICATE` (lines 108-123) applied to a
sequence of incoming chunk payloads: each chunk is appended to `saslData`; a
chunk of exactly 400 characters means more data follows; a shorter chunk
completes one logical message, which is then base64-decoded (`'+'` decodes
to the empty byte string).  `none` at the outer level: the chunk sequence
ended without ever completing a message; `some none`: a message completed
but `base64.b64decode` raised; `some (some bs)`: message `bs` decoded. -/
def saslRecv : List (List Char) → List Char → Option (Option (List Nat))
  | [], _ => none
  | chunk :: rest, acc =>
      let acc := acc ++ chunk
      if chunk.length = SASL_MAX_BLOCK_SIZE then saslRecv rest acc
      else some (if acc = ['+'] then some [] else b64decodeChars acc)

/-- `CommitBot.saslAuthenticate` (lines 210-218): an empty challenge is
answered with `NUL`-joined `(user, user, password)`, anything else with an
empty response. -/
def saslAuthenticate (saslUser saslPass : String) (data : List Nat) : List Nat :=
  if data ≠ [] then []
  else strBytes saslUser ++ 0 :: strBytes saslUser ++ 0 :: strBytes saslPass

/-! ## SASL terminal handlers and timeout (src/commitbot/irc_bot.py, 137-172) -/

/-- An observable action of the IRC client. -/
inductive IrcAct where
  | sendLine (line : String)
  | loseConnection
  | cancelTimeout
deriving DecidableEq

/-- The SASL-relevant state of a `CommitBot`: whether `self.saslTimeout`
holds a pending `DelayedCall` (`true`) or is `None` (`false`). -/
structure SaslState where
  timeoutPending : Bool
deriving DecidableEq

/-- `CommitBot._saslEnd` (lines 159-164): cancel the pending timeout if any,
clear the handle, and send `CAP END`. -/
def saslEnd (st : SaslState) : SaslState × List IrcAct :=
  if st.timeoutPending then
    (⟨false⟩, [IrcAct.cancelTimeout, IrcAct.sendLine "CAP END"])
  else
    (st, [IrcAct.sendLine "CAP END"])

/-- `CommitBot.irc_903` (RPL_SASLSUCCESS): end negotiation. -/
def irc_903 (st : SaslState) : SaslState × List IrcAct := saslEnd st

/-- `CommitBot.irc_904` (ERR_SASLFAIL): close the connection. -/
def irc_904 (st : SaslState) : SaslState × List IrcAct := (st, [IrcAct.loseConnection])

/-- `CommitBot.irc_905` (ERR_SASLTOOLONG): end negotiation. -/
def irc_905 (st : SaslState) : SaslState × List IrcAct := saslEnd st

/-- `CommitBot.irc_906` (ERR_SASLABORTED): close the connection. -/
def irc_906 (st : SaslState) : SaslState × List IrcAct := (st, [IrcAct.loseConnection])

/-- `irc_907 = irc_903` (ERR_SASLALREADY), a method alias in the source. -/
def irc_907 (st : SaslState) : SaslState × List IrcAct := irc_903 st

/-- `CommitBot._saslTimedout` (lines 166-172): a no-op when the handle was
already cleared, otherwise clear it and send `CAP END`. -/
def saslTimedout (st : SaslState) : SaslState × List IrcAct :=
  if st.timeoutPending = false then (st, [])
  else (⟨false⟩, [IrcAct.sendLine "CAP END"])

/-! ## `CommitBot.irc_CAP` (src/commitbot/irc_bot.py, lines 83-106) -/

/-- What one `irc_CAP` invocation does: the `sendLine` arguments in order,
whether the 10-second SASL timeout was started (`reactor.callLater(10, ..)`),
and whether `self.saslData` was initialised to `''`. -/
structure CapOut where
  sent : List String
  timeoutStarted : Bool
  saslDataSet : Bool
deriving DecidableEq

/-- `CommitBot.irc_CAP(prefix, params)`.  `subcommand = params[1].upper()`,
the remaining `params[2:]` supply `params[-1]` for the extension list.  On
`NAK`: `CAP END` and return.  On `ACK`: when `'sasl'` is absent from the
extension list the source sends `CAP END` but — lacking a `return` — still
falls through to set `saslData`, send `AUTHENTICATE PLAIN` and start the
timeout.  (A `params` list shorter than 2 would raise `IndexError` in the
source; server `CAP` replies always carry a subcommand, so the fallback
arm below is unreachable for the inputs the claims quantify over.) -/
def ircCAP (params : List String) : CapOut :=
  match params with
  | _ :: sub :: rest =>
      let subcommand := asciiUpper sub
      if subcommand = "NAK" then ⟨["CAP END"], false, false⟩
      else if subcommand = "ACK" then
        let extensions := splitSpace (asciiLower (rest.getLastD "")).data
        let noSasl := "sasl".data ∉ extensions
        ⟨(if noSasl then ["CAP END"] else []) ++ ["AUTHENTICATE PLAIN"], true, true⟩
      else ⟨[], false, false⟩
  | _ => ⟨[], false, false⟩

/-! ## `CommitBot.notify` (src/commitbot/irc_bot.py, lines 30-35) -/

/-- `CommitBot.notify(tag, message)`: the joined channels the message is
sent to.  The filter dictionary is an association list; the source skips a
channel exactly when its filter entry is truthy (non-empty) and does not
contain the tag.  (The source iterates a `set`, so only membership in the
result, not its order, is meaningful.) -/
def notifyChannels (channelsJoined : List String)
    (filters : List (String × List String)) (tag : String) : List String :=
  channelsJoined.filter fun channel =>
    match filters.lookup channel with
    | none => true
    | some filt => !(!filt.isEmpty && !filt.contains tag)

/-! ## Channel join queue (src/commitbot/irc_bot.py, `signedOn` / `joined` /
`kickedFrom`, lines 174-208) -/

/-- A server-driven event delivered to the connection. -/
inductive IrcEvent where
  | signedOn
  | joinedEv (channel : String)
  | kickedEv (channel : String) (kicker : String) (message : String)
deriving DecidableEq

/-- An outward action of the join machinery. -/
inductive BotAct where
  | joinCmd (channel : String)
  | stopProcess
deriving DecidableEq

/-- The join-relevant state: `self.channelsToJoin` (in configured order; the
source's `.pop()` removes from the END) and the `channelsJoined` set. -/
structure JoinState where
  toJoin : List String
  joinedCh : List String
deriving DecidableEq

/-- `if self.channelsToJoin: channel = self.channelsToJoin.pop();
self.join(channel)` — Python `list.pop()` removes the LAST element. -/
def popJoin (st : JoinState) : JoinState × List BotAct :=
  match st.toJoin.getLast? with
  | none => (st, [])
  | some ch => ({ st with toJoin := st.toJoin.dropLast }, [BotAct.joinCmd ch])

/-- One event step: `signedOn` pops one channel off the queue end;
`joined` records the channel and pops the next; `kickedFrom` discards the
channel, stops the reactor on the `'die'` message, and otherwise rejoins
the same channel (without touching the queue). -/
def stepBot (st : JoinState) : IrcEvent → JoinState × List BotAct
  | IrcEvent.signedOn => popJoin st
  | IrcEvent.joinedEv ch =>
      popJoin { st with
        joinedCh := if ch ∈ st.joinedCh then st.joinedCh else ch :: st.joinedCh }
  | IrcEvent.kickedEv ch _ msg =>
      let st := { st with joinedCh := st.joinedCh.erase ch }
      if msg = "die" then (st, [BotAct.stopProcess]) else (st, [BotAct.joinCmd ch])

/-- Run a sequence of events, concatenating the actions in emission order. -/
def runBot (st : JoinState) : List IrcEvent → JoinState × List BotAct
  | [] => (st, [])
  | e :: es =>
      let p := stepBot st e
      let q := runBot p.1 es
      (q.1, p.2 ++ q.2)

/-- Recognises a join confirmation. -/
def isJoinedEv : IrcEvent → Bool
  | IrcEvent.joinedEv _ => true
  | _ => false

/-- Recognises the events that consume the join queue (`signedOn` and
`joined` behave identically on `channelsToJoin`). -/
def isPopEv : IrcEvent → Bool
  | IrcEvent.signedOn => true
  | IrcEvent.joinedEv _ => true
  | _ => false

/-! ## `Shortener.shorten` (src/commitbot/shortener.py, lines 19-39) -/

/-- The outcome of the single `agent.request` the shortener makes: either
the transport fails (the awaited Deferred raises), or a response arrives
with a status code and a body-read result (`readBody` / `.decode('ascii')`
may themselves raise, folded into the `Except`). -/
inductive HttpOutcome where
  | transportError
  | response (code : Nat) (body : Except Unit String)

/-- `Shortener.shorten(url)`: await the request (a transport error
propagates as an exception, `Except.error`); a non-200 response yields
`None`; on 200 the body is read and returned.  The url argument only feeds
the outgoing request, which the outcome parameter already abstracts. -/
def shorten (o : HttpOutcome) : Except Unit (Option String) :=
  match o with
  | HttpOutcome.transportError => Except.error ()
  | HttpOutcome.response code body =>
      if code ≠ 200 then Except.ok none
      else match body with
        | Except.error e => Except.error e
        | Except.ok s => Except.ok (some s)

/-- Python `x or y` for an optional string: `None` and `''` are falsy. -/
def pyOrStr (r : Option String) (url : String) : String :=
  match r with
  | none => url
  | some s => if s = "" then url else s

/-! ## `CommitFormatter.format` (src/commitbot/__main__.py, lines 34-66) -/

/-- One commit of a push payload. -/
structure Commit where
  id : String
  author : String
  message : String
deriving DecidableEq

/-- The fields of a `push` webhook payload that `format` reads. -/
structure PushPayload where
  repo : String
  sender : String
  compare : String
  ref : String
  commits : List Commit
  forced : Bool
deriving DecidableEq

/-- The fields of a `pull_request` webhook payload that `format` reads. -/
structure PRPayload where
  repo : String
  sender : String
  action : String
  number : Nat
  title : String
  base : String
  head : String
  html_url : String
deriving DecidableEq

/-- Python `'refs/heads/x'.removeprefix('refs/heads/')`. -/
def stripRefsHeads (r : String) : String :=
  if r.startsWith "refs/heads/" then r.drop 11 else r

/-- First line of a commit message (`message.split('\n', maxsplit=1)[0]`). -/
def firstLine (s : String) : String :=
  String.mk (s.data.takeWhile (fun c => c ≠ '\n'))

/-- The push summary message text.  The source assembles mIRC colour
attributes around these fields; colour codes are outside the spec's scope,
so the model keeps the fields and their order. -/
def pushSummary (surl : String) (p : PushPayload) : String :=
  "[" ++ p.repo ++ "] " ++ p.sender ++ " "
    ++ (if p.forced then "forced pushed" else "pushed") ++ " "
    ++ toString p.commits.length ++ " new commits to " ++ stripRefsHeads p.ref
    ++ ": " ++ surl

/-- One per-commit line: abbreviated id, branch, author, first message line. -/
def commitLine (p : PushPayload) (c : Commit) : String :=
  p.repo ++ "/" ++ stripRefsHeads p.ref ++ " " ++ c.id.take 7 ++ " "
    ++ c.author ++ ": " ++ firstLine c.message

/-- The notification messages a push event produces: one summary plus the
first three commits, each tagged with the repository name. -/
def pushMessages (surl : String) (p : PushPayload) : List (String × String) :=
  (p.repo, pushSummary surl p) :: (p.commits.take 3).map (fun c => (p.repo, commitLine p c))

/-- The single pull-request message text. -/
def prLine (surl : String) (q : PRPayload) : String :=
  "[" ++ q.repo ++ "] " ++ q.sender ++ " " ++ q.action ++ " pull request #"
    ++ toString q.number ++ ": " ++ q.title ++ " (" ++ q.base ++ "..." ++ q.head
    ++ ") " ++ surl

/-- `format` on a `push` event: shorten the compare link (`(await
self.shortener.shorten(url)) or url`), emit the summary and up to three
commit lines.  An exception raised by `shorten` aborts the coroutine:
`Except.error` with no messages delivered. -/
def formatPush (o : HttpOutcome) (p : PushPayload) : Except Unit (List (String × String)) :=
  match shorten o with
  | Except.error e => Except.error e
  | Except.ok r =>
      let surl := pyOrStr r p.compare
      Except.ok ((p.repo, pushSummary surl p)
        :: (p.commits.take 3).map (fun c => (p.repo, commitLine p c)))

/-- `format` on a `pull_request` event: actions outside
`{opened, closed, reopened}` return before the shortener is consulted;
otherwise shorten the PR link and emit one message. -/
def formatPR (o : HttpOutcome) (q : PRPayload) : Except Unit (List (String × String)) :=
  if q.action ∉ ["opened", "closed", "reopened"] then Except.ok []
  else
    match shorten o with
    | Except.error e => Except.error e
    | Except.ok r => Except.ok [(q.repo, prLine (pyOrStr r q.html_url) q)]

/-! ## `GithubHook.render_POST` (src/commitbot/http_hooks.py, lines 39-68) -/

/-- The parts of a Twisted `Request` that `render_POST` reads. -/
structure WebRequest where
  eventHeader : Option String
  signatureHeader : Option String
  contentType : Option String
  body : List Nat
deriving DecidableEq

/-- A response `render_POST` managed to return: status code, response body,
and the `reactor.callLater(0, self.notify, 'github', event, parsed)` call it
scheduled, if any. -/
structure RenderOk (J : Type) where
  status : Nat
  body : String
  dispatched : Option (String × Option String × J)
deriving DecidableEq

/-- Python truthiness of the configured secret (`if self.secret:`):
`None` and `''` are falsy. -/
def secretTruthy (secret : Option String) : Bool :=
  match secret with
  | none => false
  | some s => s ≠ ""

/-- The tail of `render_POST`: `json.loads(payload)` evaluated while
building the `callLater` arguments — a `JSONDecodeError` escapes the
handler (outer `Except.error`); on success the request is answered 200
after scheduling the notify call. -/
def renderFinish {J : Type} (jsonLoads : List Nat → Except Unit J)
    (event : Option String) (payload : List Nat) : Except Unit (RenderOk J) :=
  match jsonLoads payload with
  | Except.error e => Except.error e
  | Except.ok j => Except.ok ⟨200, "OK\n", some ("github", event, j)⟩

/-- The signature gate at the top of `render_POST` (lines 43-50): `some`
is an early 403 return, `none` lets the request continue. -/
def sigReject {J : Type} (secret : Option String) (req : WebRequest) :
    Option (RenderOk J) :=
  if secretTruthy secret then
    match req.signatureHeader with
    | none => some ⟨403, "Missing signature\n", none⟩
    | some signature =>
        if ¬ checkSignature (secret.getD "") req.body signature then
          some ⟨403, "Invalid signature\n", none⟩
        else none
  else none

/-- The content-negotiation phase of `render_POST` (lines 52-68), reached
once the signature gate passed: the form-urlencoded branch requires exactly
one `payload` field (400 otherwise), any other content type except
`application/json` is 415, and the surviving payload goes to `json.loads`
and the scheduled notify. -/
def renderContent {J : Type} (jsonLoads : List Nat → Except Unit J)
    (parseForm : List Nat → Option (List (List Nat)))
    (req : WebRequest) : Except Unit (RenderOk J) :=
  if asciiLower (req.contentType.getD "") = "application/x-www-form-urlencoded" then
    match parseForm req.body with
    | some [p] => renderFinish jsonLoads req.eventHeader p
    | _ => Except.ok ⟨400, "Missing payload\n", none⟩
  else if asciiLower (req.contentType.getD "") ≠ "application/json" then
    Except.ok ⟨415, "Invalid Content-Type\n", none⟩
  else renderFinish jsonLoads req.eventHeader req.body

/-- `GithubHook.render_POST(request)`.  `jsonLoads` is the `json.loads`
oracle (`Except.error` models a raised `JSONDecodeError`); `parseForm`
models `http.parse_qs(payload, keep_blank_values=True).get(b'payload')`
(`some l` when the form decodes with a `payload` key bound to list `l`).
The outer `Except.error` is an exception escaping the handler, which
Twisted reports as an internal server error, not as a 4xx. -/
def renderPOST {J : Type} (jsonLoads : List Nat → Except Unit J)
    (parseForm : List Nat → Option (List (List Nat)))
    (secret : Option String) (req : WebRequest) : Except Unit (RenderOk J) :=
  match sigReject secret req with
  | some r => Except.ok r
  | none => renderContent jsonLoads parseForm req

/-- Does a `render_POST` outcome answer the request with status 400? -/
def returns400 {J : Type} : Except Unit (RenderOk J) → Bool
  | Except.ok r => r.status == 400
  | Except.error _ => false

/-- The payload a request carries into `json.loads` when it passes content
negotiation — the same branch structure as `renderContent` (lines 52-66),
with `some` exactly on the two paths that reach `json.loads`: the
form-urlencoded branch with exactly one `payload` field (which yields that
field), and the `application/json` branch (which yields the raw body);
`none` on the 400 and 415 rejection paths. -/
def negotiatedPayload (parseForm : List Nat → Option (List (List Nat)))
    (req : WebRequest) : Option (List Nat) :=
  if asciiLower (req.contentType.getD "") = "application/x-www-form-urlencoded" then
    match parseForm req.body with
    | some [p] => some p
    | _ => none
  else if asciiLower (req.contentType.getD "") ≠ "application/json" then none
  else some req.body

/-! ## Supporting lemmas -/

/-- Every emitted hex digit is drawn from the lowercase alphabet. -/
lemma hexDigit_mem (n : Nat) : hexDigit n ∈ hexChars := by
  have key : ∀ m, m < 16 → hexChars.getD m '0' ∈ hexChars := by decide
  exact key (n % 16) (Nat.mod_lt _ (by norm_num))

/-- All characters of a hex rendering lie in the lowercase alphabet. -/
lemma hexBytes_lower (bs : List Nat) :
    (hexBytes bs).all (fun c => hexChars.contains c) = true := by
  simp [hexBytes, hexDigit_mem]

/-! ## Claims -/

/-- C1: `GithubHook.checkSignature` accepts a header exactly when it equals
`"sha256="` followed by the hex digest of HMAC-SHA256 of the configured
secret (UTF-8 encoded) over the raw payload bytes — so a wrong secret, a
truncated body, or any altered byte is rejected whenever the digests
differ; any malformed header is simply unequal and yields `false` (the
model is total, mirroring `hmac.compare_digest`'s boolean result) — and
the digest rendering uses only the lowercase hex alphabet. -/
theorem c1_checkSignature_iff :
    (∀ (S : String) (B : List Nat) (H : String),
        checkSignature S B H = true ↔
          H = "sha256=" ++ hexdigest (hmacSha256 (strBytes S) B))
    ∧ ∀ (S : String) (B : List Nat),
        ((hexdigest (hmacSha256 (strBytes S) B)).data.all
          (fun c => hexChars.contains c)) = true := by
  constructor
  · intro S B H
    have h : checkSignature S B H
        = (("sha256=" ++ hexdigest (hmacSha256 (strBytes S) B)) == H) := rfl
    rw [h, beq_iff_eq]
    exact eq_comm
  · intro S B
    exact hexBytes_lower _

set_option maxRecDepth 10000 in
/-- C2: the claim expects a 400-character-multiple encoding to be followed
by a terminating `'+'` line, but the sender's `while len(out) > 400` loop
always leaves a non-empty remainder (of exactly 400 characters), so the
`else` branch that sends `'AUTHENTICATE +'` is unreachable: a 300-byte
payload encodes to exactly 400 characters (`k = 1`) and is sent as one
400-character line with no `'+'` line at all. -/
theorem c2_sender_omits_plus_terminator :
    saslRespond (List.replicate 300 0) = [List.replicate 400 'A'] := by decide

set_option maxRecDepth 10000 in
/-- C3: the sender/receiver pair is not a round-trip identity at encoded
length 400: the sender emits the single 400-character chunk with no
terminating `'+'`, and the receiver's own rule treats a 400-character chunk
as "more data follows", so reassembly never completes (`none`) and the
original 300 bytes are not reproduced. -/
theorem c3_roundtrip_fails_at_400 :
    saslRecv (saslRespond (List.replicate 300 0)) [] = none := by decide

/-- C8: on a `CAP ACK` whose capability list lacks `'sasl'`, the handler
sends `CAP END` but — missing a `return` — falls through and still sends
`AUTHENTICATE PLAIN`, initialises `saslData`, and starts the 10-second
SASL timeout, contradicting the claim that a sasl-less ACK produces a
single `CAP END` and nothing else. -/
theorem c8_ack_without_sasl_still_authenticates :
    ircCAP ["*", "ACK", "account-notify"]
      = ⟨["CAP END", "AUTHENTICATE PLAIN"], true, true⟩ := by rfl

/-- C7 counterexample: with a timeout pending, the 904 (failure) and 906
(abort) handlers close the connection without cancelling the SASL timeout —
the handle stays set, and when the delayed call later fires it still acts
(sends `CAP END`), refuting the claim that every terminal SASL transition
cancels the timeout. -/
theorem c7_counterexample_904_906_keep_timeout :
    (irc_904 ⟨true⟩).1.timeoutPending = true
    ∧ (irc_906 ⟨true⟩).1.timeoutPending = true
    ∧ saslTimedout ⟨true⟩ = (⟨false⟩, [IrcAct.sendLine "CAP END"]) := by decide

/-- C7 amended: the SASL timeout handle is cleared on the 903 / 905 / 907
transitions (the `_saslEnd` path); the 904 and 906 handlers leave the state
— including a pending timeout — untouched and only close the connection. -/
theorem c7_cancel_only_on_saslEnd_path (st : SaslState) :
    (irc_903 st).1.timeoutPending = false
    ∧ (irc_905 st).1.timeoutPending = false
    ∧ (irc_907 st).1.timeoutPending = false
    ∧ (irc_904 st).1 = st ∧ (irc_906 st).1 = st := by
  rcases st with ⟨b⟩
  cases b <;> decide

/-- C9 counterexample: a joined channel with an EMPTY filter entry receives
every tag (Python's `if filt and ...` treats `[]` as falsy), although the
claim's rule — delivery iff no entry or the tag is in the entry — predicts
no delivery for a tag outside the (empty) entry. -/
theorem c9_empty_filter_entry_delivers :
    notifyChannels ["general"] [("general", [])] "push" = ["general"]
    ∧ ¬ (List.lookup "general" [("general", ([] : List String))] = none
          ∨ "push" ∈ ([] : List String)) := by decide

/-- C9 amended: a message is delivered to a joined channel iff the channel
has no filter entry, has an empty filter entry, or has an entry containing
the tag — so with filter `general ↦ [push]` a `pull_request` message skips
`general` but reaches any joined channel without an entry. -/
theorem c9_notify_iff (joined : List String) (filters : List (String × List String))
    (tag ch : String) :
    ch ∈ notifyChannels joined filters tag ↔
      ch ∈ joined ∧ (filters.lookup ch = none ∨ filters.lookup ch = some []
        ∨ ∃ filt, filters.lookup ch = some filt ∧ tag ∈ filt) := by
  simp only [notifyChannels, List.mem_filter]
  rcases h : filters.lookup ch with _ | filt
  · simp [h]
  · rcases filt with _ | ⟨f, fs⟩
    · simp [h]
    · simp [h, List.elem_iff]

/-- C6 counterexample: with configured channels `[#a, #b, #c]`, the first
join command issued on sign-on is for `#c` (Python `list.pop()` removes the
last element), and the join for the second configured channel `#b` is sent
in a trace that contains no join confirmation (nor kick) for the first
configured channel `#a` — refuting consumption in listed order. -/
theorem c6_counterexample_reverse_pop :
    (runBot ⟨["#a", "#b", "#c"], []⟩ [IrcEvent.signedOn, IrcEvent.joinedEv "#c"]).2
      = [BotAct.joinCmd "#c", BotAct.joinCmd "#b"] := by decide

/-- `popJoin` on an empty queue does nothing. -/
lemma popJoin_nil (st : JoinState) (h : st.toJoin = []) : popJoin st = (st, []) := by
  simp [popJoin, h]

/-- `popJoin` pops exactly the last queue element. -/
lemma popJoin_concat (st : JoinState) (t : List String) (a : String)
    (h : st.toJoin = t ++ [a]) :
    popJoin st = ({ st with toJoin := t }, [BotAct.joinCmd a]) := by
  simp [popJoin, h, List.getLast?_concat, List.dropLast_concat]

/-- Across any run of queue-consuming events (`signedOn` / `joined`), the
join commands emitted are the queue's elements from the END, one per event. -/
lemma runBot_pop_trace (evs : List IrcEvent) :
    ∀ st : JoinState, evs.all isPopEv = true →
      (runBot st evs).2 = (st.toJoin.reverse.take evs.length).map BotAct.joinCmd := by
  induction evs with
  | nil => intro st _; simp [runBot]
  | cons e es ih =>
      intro st h
      simp only [List.all_cons, Bool.and_eq_true] at h
      obtain ⟨he, hes⟩ := h
      rcases hr : st.toJoin.reverse with _ | ⟨a, t⟩
      · have hnil : st.toJoin = [] := by
          have := congrArg List.reverse hr
          simpa using this
        cases e with
        | signedOn =>
            simp only [runBot, stepBot, popJoin_nil st hnil]
            simp [ih st hes, hnil]
        | joinedEv ch =>
            have hnil' : (JoinState.mk st.toJoin
                (if ch ∈ st.joinedCh then st.joinedCh else ch :: st.joinedCh)).toJoin = [] := hnil
            simp only [runBot, stepBot, popJoin_nil _ hnil']
            simp [ih _ hes, hnil]
        | kickedEv ch k m => simp [isPopEv] at he
      · have hcat : st.toJoin = t.reverse ++ [a] := by
          have := congrArg List.reverse hr
          simpa using this
        cases e with
        | signedOn =>
            simp only [runBot, stepBot, popJoin_concat st t.reverse a hcat]
            simp [ih _ hes, hr]
        | joinedEv ch =>
            have hcat' : (JoinState.mk st.toJoin
                (if ch ∈ st.joinedCh then st.joinedCh else ch :: st.joinedCh)).toJoin
                  = t.reverse ++ [a] := hcat
            simp only [runBot, stepBot, popJoin_concat _ t.reverse a hcat']
            simp [ih _ hes, hr]
        | kickedEv ch k m => simp [isPopEv] at he

/-- C6 amended: the join queue is consumed strictly one element per event,
but in REVERSE of the configured order: after `signedOn` and any `k` join
confirmations, the join commands issued for queue channels are exactly the
last `k + 1` configured channels, last first. -/
theorem c6_joins_consume_queue_in_reverse (q : List String) (evs : List IrcEvent)
    (h : evs.all isJoinedEv = true) :
    (runBot ⟨q, []⟩ (IrcEvent.signedOn :: evs)).2
      = (q.reverse.take (evs.length + 1)).map BotAct.joinCmd := by
  have hall : (IrcEvent.signedOn :: evs).all isPopEv = true := by
    simp only [List.all_cons, Bool.and_eq_true]
    refine ⟨rfl, ?_⟩
    rw [List.all_eq_true] at h ⊢
    intro e hin
    have := h e hin
    cases e <;> simp_all [isJoinedEv, isPopEv]
  simpa using runBot_pop_trace (IrcEvent.signedOn :: evs) ⟨q, []⟩ hall

/-- C6 witness: instantiating the amended ordering theorem on the concrete
queue `[#x, #y]` with one confirmation. -/
theorem c6_witness :
    ([IrcEvent.joinedEv "#y"].all isJoinedEv = true)
    ∧ (runBot ⟨["#x", "#y"], []⟩ (IrcEvent.signedOn :: [IrcEvent.joinedEv "#y"])).2
        = ((["#x", "#y"].reverse.take ([IrcEvent.joinedEv "#y"].length + 1)).map
            BotAct.joinCmd) :=
  ⟨by decide, c6_joins_consume_queue_in_reverse ["#x", "#y"] [IrcEvent.joinedEv "#y"] (by decide)⟩

/-- A concrete push payload with one commit, used for the C4 instances. -/
def pushExample : PushPayload :=
  { repo := "scummvm"
    sender := "alice"
    compare := "https://example.org/compare/a...b"
    ref := "refs/heads/master"
    commits := [⟨"0123456789abcdef", "alice", "Fix the thing\nwith details"⟩]
    forced := false }

/-- A concrete pull-request payload, used for the C4 witness. -/
def prExample : PRPayload :=
  { repo := "scummvm"
    sender := "bob"
    action := "opened"
    number := 7
    title := "Add feature"
    base := "master"
    head := "feature"
    html_url := "https://example.org/pull/7" }

/-- How many notification messages a formatter outcome carries. -/
def emittedCount : Except Unit (List (String × String)) → Nat
  | Except.ok l => l.length
  | Except.error _ => 0

/-- C4 counterexample: a transport error in the shortener call is NOT
turned into a fallback — `await self.agent.request(..)` raises, nothing in
`shorten` or `format` catches it, so the exception propagates out of the
formatter and the event's notifications (here the summary and one commit
line) are all suppressed, refuting the claim for the transport-error case. -/
theorem c4_counterexample_transport_error :
    formatPush HttpOutcome.transportError pushExample = Except.error ()
    ∧ emittedCount (formatPush HttpOutcome.transportError pushExample) = 0
    ∧ (pushMessages pushExample.compare pushExample).length = 2 := ⟨rfl, rfl, rfl⟩

/-- C4 amended: whenever the shortener call completes without raising —
any HTTP response, where a non-2xx status or an empty body yields `none` /
`''` and hence the original URL via the falsy-or — the formatter emits
every notification message for both push and pull-request events, with the
unshortened URL as fallback; only a raising call (transport/read error)
escapes and suppresses the event's messages. -/
theorem c4_fallback_when_shorten_returns (o : HttpOutcome) (r : Option String)
    (p : PushPayload) (q : PRPayload) (h : shorten o = Except.ok r) :
    formatPush o p = Except.ok (pushMessages (pyOrStr r p.compare) p)
    ∧ (pushMessages (pyOrStr r p.compare) p).length = min 3 p.commits.length + 1
    ∧ formatPR o q = Except.ok (if q.action ∈ ["opened", "closed", "reopened"]
        then [(q.repo, prLine (pyOrStr r q.html_url) q)] else []) := by
  refine ⟨?_, ?_, ?_⟩
  · simp [formatPush, h, pushMessages]
  · simp [pushMessages, List.length_take]
  · by_cases ha : q.action ∈ ["opened", "closed", "reopened"] <;>
      simp [formatPR, h, ha]

/-- C4 witness: a 404 response makes `shorten` return `None` and the
formatter still emits every message with the original URLs. -/
theorem c4_witness :
    shorten (HttpOutcome.response 404 (Except.ok "")) = Except.ok none
    ∧ (formatPush (HttpOutcome.response 404 (Except.ok "")) pushExample
          = Except.ok (pushMessages (pyOrStr none pushExample.compare) pushExample)
        ∧ (pushMessages (pyOrStr none pushExample.compare) pushExample).length
            = min 3 pushExample.commits.length + 1
        ∧ formatPR (HttpOutcome.response 404 (Except.ok "")) prExample
            = Except.ok (if prExample.action ∈ ["opened", "closed", "reopened"]
                then [(prExample.repo,
                        prLine (pyOrStr none prExample.html_url) prExample)] else [])) :=
  ⟨rfl, c4_fallback_when_shorten_returns (HttpOutcome.response 404 (Except.ok ""))
    none pushExample prExample rfl⟩

/-- The `json.loads` oracle for a body that is not well-formed JSON. -/
def jsonFailOracle : List Nat → Except Unit Unit := fun _ => Except.error ()

/-- A form-parse oracle for requests that are not form-urlencoded. -/
def noForm : List Nat → Option (List (List Nat)) := fun _ => none

/-- A POST with no configured secret, JSON content type, and a body
(`b'not json'`) that `json.loads` rejects. -/
def badJsonReq : WebRequest :=
  { eventHeader := some "push"
    signatureHeader := none
    contentType := some "application/json"
    body := [110, 111, 116, 32, 106, 115, 111, 110] }

/-- C5 counterexample: a request that passes the (skipped) signature gate
and content negotiation but carries malformed JSON is NOT answered with
400 — `json.loads(payload)` raises inside `render_POST` and the exception
escapes the handler (Twisted then reports an internal server error); the
only 400 path in the source is the missing-form-payload branch. -/
theorem c5_counterexample_malformed_json_not_400 :
    renderPOST jsonFailOracle noForm none badJsonReq = Except.error ()
    ∧ returns400 (renderPOST jsonFailOracle noForm none badJsonReq) = false :=
  ⟨rfl, rfl⟩

/-- When content negotiation yields a payload, the content phase is exactly
the `json.loads`-and-schedule tail on that payload. -/
lemma renderContent_eq_finish {J : Type} (jsonLoads : List Nat → Except Unit J)
    (parseForm : List Nat → Option (List (List Nat))) (req : WebRequest)
    (p : List Nat) (hneg : negotiatedPayload parseForm req = some p) :
    renderContent jsonLoads parseForm req = renderFinish jsonLoads req.eventHeader p := by
  unfold renderContent
  unfold negotiatedPayload at hneg
  by_cases hform : asciiLower (req.contentType.getD "") = "application/x-www-form-urlencoded"
  · rw [if_pos hform]
    rw [if_pos hform] at hneg
    cases hpf : parseForm req.body with
    | none => rw [hpf] at hneg; exact absurd hneg (by simp)
    | some l =>
        rw [hpf] at hneg
        rcases l with _ | ⟨q, _ | ⟨q2, rest⟩⟩
        · exact absurd hneg (by simp)
        · simp only [Option.some.injEq] at hneg
          simp [hpf, hneg]
        · exact absurd hneg (by simp)
  · rw [if_neg hform]
    rw [if_neg hform] at hneg
    by_cases hjs : asciiLower (req.contentType.getD "") ≠ "application/json"
    · rw [if_pos hjs] at hneg
      exact absurd hneg (by simp)
    · rw [if_neg hjs] at hneg ⊢
      simp only [Option.some.injEq] at hneg
      rw [hneg]

/-- C5 amended: for every POST whose signature gate passes (no secret
configured, or a header matching the body's HMAC) and whose content
negotiation yields a payload (JSON content type with the raw body, or
form-urlencoded with exactly one `payload` field), if `json.loads` rejects
that payload the handler terminates by the parse exception escaping it —
the framework, not the handler, answers the request (as an internal error,
not 400) and the process is not terminated; no notify call is scheduled. -/
theorem c5_malformed_json_raises {J : Type} (jsonLoads : List Nat → Except Unit J)
    (parseForm : List Nat → Option (List (List Nat))) (secret : Option String)
    (req : WebRequest) (p : List Nat)
    (hsig : sigReject (J := J) secret req = none)
    (hneg : negotiatedPayload parseForm req = some p)
    (hjson : jsonLoads p = Except.error ()) :
    renderPOST jsonLoads parseForm secret req = Except.error () := by
  have hb : renderPOST jsonLoads parseForm secret req
      = renderContent jsonLoads parseForm req := by
    unfold renderPOST
    rw [hsig]
  rw [hb, renderContent_eq_finish jsonLoads parseForm req p hneg]
  simp [renderFinish, hjson]

/-- C5 witness: the amended escape theorem at the concrete malformed
request (no secret configured, JSON content type). -/
theorem c5_witness :
    sigReject (J := Unit) none badJsonReq = none
    ∧ negotiatedPayload noForm badJsonReq = some badJsonReq.body
    ∧ jsonFailOracle badJsonReq.body = Except.error ()
    ∧ renderPOST jsonFailOracle noForm none badJsonReq = Except.error () :=
  ⟨rfl, rfl, rfl,
    c5_malformed_json_raises jsonFailOracle noForm none badJsonReq badJsonReq.body
      rfl rfl rfl⟩

/-- A 403 early return never carries a scheduled dispatch. -/
lemma sigReject_dispatched {J : Type} (secret : Option String) (req : WebRequest)
    (r : RenderOk J) (h : sigReject secret req = some r) : r.dispatched = none := by
  unfold sigReject at h
  split at h
  · split at h
    · cases h; rfl
    · split at h
      · cases h; rfl
      · cases h
  · cases h

/-- A successful `renderFinish` always answers 200. -/
lemma renderFinish_status {J : Type} (jsonLoads : List Nat → Except Unit J)
    (ev : Option String) (p : List Nat) (r : RenderOk J)
    (h : renderFinish jsonLoads ev p = Except.ok r) : r.status = 200 := by
  unfold renderFinish at h
  split at h
  · cases h
  · cases h; rfl

/-- The content phase only dispatches on its 200 path. -/
lemma renderContent_dispatched {J : Type} (jsonLoads : List Nat → Except Unit J)
    (parseForm : List Nat → Option (List (List Nat))) (req : WebRequest)
    (r : RenderOk J) (h : renderContent jsonLoads parseForm req = Except.ok r)
    (hne : r.status ≠ 200) : r.dispatched = none := by
  unfold renderContent at h
  split at h
  · split at h
    · exact absurd (renderFinish_status _ _ _ _ h) hne
    · cases h; rfl
  · split at h
    · cases h; rfl
    · exact absurd (renderFinish_status _ _ _ _ h) hne

/-- C10: every POST answered with a non-200 status (403 missing/invalid
signature, 400 missing/duplicated form payload, 415 unsupported content
type) schedules no formatting/dispatch task — the notify callback is never
handed to `reactor.callLater` on a rejected request.  (When `json.loads`
raises, the handler returns no response at all and likewise never reaches
the `callLater` line.) -/
theorem c10_non200_never_dispatches {J : Type} (jsonLoads : List Nat → Except Unit J)
    (parseForm : List Nat → Option (List (List Nat))) (secret : Option String)
    (req : WebRequest) (r : RenderOk J)
    (hok : renderPOST jsonLoads parseForm secret req = Except.ok r)
    (hne : r.status ≠ 200) : r.dispatched = none := by
  unfold renderPOST at hok
  rcases hsig : sigReject (J := J) secret req with _ | r'
  · simp only [hsig] at hok
    exact renderContent_dispatched jsonLoads parseForm req r hok hne
  · simp only [hsig] at hok
    cases hok
    exact sigReject_dispatched secret req _ hsig

/-- The `json.loads` oracle for the C10 witness (body irrelevant: the
request is rejected before parsing). -/
def jsonUnitOracle : List Nat → Except Unit Unit := fun _ => Except.ok ()

/-- A POST with a configured secret but no signature header. -/
def reqNoSig : WebRequest :=
  { eventHeader := none
    signatureHeader := none
    contentType := some "application/json"
    body := [] }

/-- C10 witness: a missing signature yields 403 with no dispatch. -/
theorem c10_witness :
    renderPOST jsonUnitOracle noForm (some "hooksecret") reqNoSig
        = Except.ok ⟨403, "Missing signature\n", none⟩
    ∧ (403 : Nat) ≠ 200
    ∧ (RenderOk.mk (J := Unit) 403 "Missing signature\n" none).dispatched = none :=
  ⟨rfl, by decide,
    c10_non200_never_dispatches jsonUnitOracle noForm (some "hooksecret") reqNoSig
      ⟨403, "Missing signature\n", none⟩ rfl (by decide)⟩

end Commitbot
